import Mathlib

/-!
Verification development for the Traff-AI dashboard.

This file gives a shallow embedding of the dashboard's pure logic
(report statistics and filtering, upload validation, calibration-page
state handling, processing preconditions, status polling) together with
models, taken from the specification, of the backend pieces the
dashboard's data contracts imply (calibration-input validation, the
process transition, the analytics summary, the projective transform).
JavaScript numbers are embedded as rationals where the operations used
(comparison, `min`/`max`, addition) are exact on them, and as reals for
the metric-distance computation of the calibration transform.
-/

/-! ## Data model -/

/-- Status of a video record: the lifecycle states rendered by the dashboard. -/
inductive VideoStatus
  | uploaded
  | processing
  | completed
  | failed
  deriving DecidableEq, Repr

/-- A video record as the dashboard consumes it. -/
structure Video where
  id : Nat
  filename : String
  status : VideoStatus
  progress : Nat
  processed_frames : Nat
  total_frames : Nat
  is_calibrated : Bool
  vehicle_count : Nat
  uploaded_at : ℚ
  processed_at : Option ℚ
  deriving DecidableEq, Repr

/-- One detection row of the per-video report. -/
structure Detection where
  track_id : Nat
  frame_number : Nat
  timestamp : ℚ
  speed : ℚ
  is_speeding : Bool
  deriving DecidableEq, Repr

/-- The processing configuration assembled on the video-detail page. -/
structure ProcessingConfig where
  confidence_threshold : ℚ
  iou_threshold : ℚ
  enable_speed_calculation : Bool
  speed_limit : ℚ
  deriving DecidableEq, Repr

/-! ## Report page (ReportPage) -/

/-- The report page's filter tabs. -/
inductive ReportFilter
  | all
  | speeding
  | normal
  deriving DecidableEq, Repr

/-- The predicate the report page's detection filter applies for a given tab:
`speeding` keeps `d.is_speeding`, `normal` keeps `!d.is_speeding`, `all` keeps
everything. -/
def filterPred (f : ReportFilter) (d : Detection) : Bool :=
  match f with
  | ReportFilter.speeding => d.is_speeding
  | ReportFilter.normal => !d.is_speeding
  | ReportFilter.all => true

/-- `filteredDetections` from ReportPage: `detections.filter(...)` under the
selected tab. -/
def filteredDetections (ds : List Detection) (f : ReportFilter) : List Detection :=
  ds.filter (filterPred f)

/-- `totalVehicles` from ReportPage: `detections.length`. -/
def totalVehicles (ds : List Detection) : Nat :=
  ds.length

/-- `speedingVehicles` from ReportPage: `detections.filter(d => d.is_speeding).length`. -/
def speedingVehicles (ds : List Detection) : Nat :=
  (ds.filter (fun d => d.is_speeding)).length

/-- `maxSpeed` from ReportPage: `Math.max(...detections.map(d => d.speed), 0)`,
the maximum of all the speed values together with the extra argument `0`. -/
def maxSpeed (ds : List Detection) : ℚ :=
  (ds.map (fun d => d.speed)).foldr max 0

/-- The specification's reading of `max_speed`: the maximum of the detections'
speed values alone, and `0` only when the list is empty.  Stated from the
spec's words for comparison with `maxSpeed`. -/
def claimMaxSpeed (ds : List Detection) : ℚ :=
  match ds.map (fun d => d.speed) with
  | [] => 0
  | s :: ss => ss.foldl max s

/-! ## Video detail page (VideoDetailPage) -/

/-- Result of the react-query `refetchInterval` option: a polling interval in
milliseconds, or `off` (the JavaScript `false`) meaning no polling. -/
inductive RefetchResult
  | interval (ms : Nat)
  | off
  deriving DecidableEq, Repr

/-- The video-detail query's `refetchInterval` function:
`video?.status === 'processing' ? 2000 : false`. -/
def refetchInterval (video : Option Video) : RefetchResult :=
  match video with
  | some v =>
      if v.status = VideoStatus.processing then RefetchResult.interval 2000
      else RefetchResult.off
  | none => RefetchResult.off

/-- The observable outcome of clicking the process button. -/
inductive ProcessAction
  | navigateToCalibration
  | processRequest
  | cancelled
  deriving DecidableEq, Repr

/-- `handleProcess` from VideoDetailPage: when speed calculation is enabled on
an uncalibrated video it navigates to the calibration page and returns without
issuing any request; otherwise it issues the process request exactly when the
user confirms the dialog. -/
def handleProcess (v : Video) (cfg : ProcessingConfig) (confirmed : Bool) : ProcessAction :=
  if cfg.enable_speed_calculation && !v.is_calibrated then
    ProcessAction.navigateToCalibration
  else if confirmed then
    ProcessAction.processRequest
  else
    ProcessAction.cancelled

/-! ## Upload page (UploadPage) -/

/-- A selected browser file: its name and size in bytes. -/
structure JSFile where
  name : List Char
  size : Nat
  deriving DecidableEq, Repr

/-- The allowed video filename extensions, lowercased. -/
def validTypes : List (List Char) :=
  [".mp4".toList, ".avi".toList, ".mov".toList, ".mkv".toList, ".wmv".toList]

/-- The maximum accepted upload size: `500 * 1024 * 1024` bytes. -/
def maxSize : Nat :=
  500 * 1024 * 1024

/-- `file.name.substring(file.name.lastIndexOf('.'))`: the suffix of the name
starting at the last dot, including the dot; when the name has no dot,
`lastIndexOf` returns `-1`, which `substring` clamps to `0`, so the whole name
is returned. -/
def extOf (name : List Char) : List Char :=
  if '.' ∈ name then
    '.' :: (name.reverse.takeWhile (fun c => c ≠ '.')).reverse
  else
    name

/-- The lowercased extension `fileExt` computed by `handleFileSelect`. -/
def fileExt (f : JSFile) : List Char :=
  (extOf f.name).map Char.toLower

/-- `handleFileSelect` from UploadPage, as a transition on the `selectedFile`
state: an invalid extension or an over-large file leaves the selection
unchanged; otherwise the file becomes the selection. -/
def handleFileSelect (f : JSFile) (selected : Option JSFile) : Option JSFile :=
  if !(validTypes.contains (fileExt f)) then selected
  else if maxSize < f.size then selected
  else some f

/-- `handleUpload` from UploadPage issues an upload request for exactly the
currently selected file (and nothing when no file is selected). -/
def uploadRequest (selected : Option JSFile) : Option JSFile :=
  selected

/-! ## Calibration page (CalibrationPage) -/

/-- A calibration zone as built by the calibration page: a name, a vertical
band, two clicked reference points and the real distance between them.
Points and distance are optional because the in-progress `currentZone`
starts with them unset. -/
structure Zone where
  name : String
  y_min : ℚ
  y_max : ℚ
  reference_point1 : Option (ℚ × ℚ)
  reference_point2 : Option (ℚ × ℚ)
  real_distance : Option ℚ
  deriving DecidableEq, Repr

/-- The initial / reset value of `currentZone`. -/
def emptyCurrentZone : Zone :=
  { name := ""
    y_min := 0
    y_max := 0
    reference_point1 := none
    reference_point2 := none
    real_distance := some 10 }

/-- The calibration page's component state: the accumulated zones, the
in-progress zone and the click counter. -/
structure CalibState where
  zones : List Zone
  currentZone : Zone
  clickCount : Nat
  deriving DecidableEq, Repr

/-- `handleCanvasClick` from CalibrationPage: the first click sets
`reference_point1`, the second sets `reference_point2`, further clicks are
ignored. -/
def handleCanvasClick (p : ℚ × ℚ) (s : CalibState) : CalibState :=
  if s.clickCount = 0 then
    { s with
        currentZone := { s.currentZone with reference_point1 := some p }
        clickCount := 1 }
  else if s.clickCount = 1 then
    { s with
        currentZone := { s.currentZone with reference_point2 := some p }
        clickCount := 2 }
  else
    s

/-- The JavaScript validity test `!(!real_distance || real_distance <= 0)`:
the distance is present and strictly positive. -/
def validDistance (d : Option ℚ) : Bool :=
  match d with
  | none => false
  | some x => decide (0 < x)

/-- `handleAddZone` from CalibrationPage: rejects (returning the state
unchanged) when the name is empty, either reference point is unset, or the
real distance is missing or non-positive; otherwise appends the zone with
`y_min = max(0, min(y1, y2) - 50)` and `y_max = max(y1, y2) + 50` and resets
the in-progress zone and click counter. -/
def handleAddZone (s : CalibState) : CalibState :=
  if s.currentZone.name = "" then s
  else
    match s.currentZone.reference_point1, s.currentZone.reference_point2 with
    | some p1, some p2 =>
        if validDistance s.currentZone.real_distance then
          { zones := s.zones ++
              [{ s.currentZone with
                   y_min := max 0 (min p1.2 p2.2 - 50)
                   y_max := max p1.2 p2.2 + 50 }]
            currentZone := emptyCurrentZone
            clickCount := 0 }
        else s
    | _, _ => s

/-- The payload `handleSaveCalibration` sends: `{ zones }`. -/
structure SavePayload where
  zones : List Zone
  deriving DecidableEq, Repr

/-- `handleSaveCalibration` from CalibrationPage as a function from the zones
state to the request it issues: no request when the zone list is empty,
otherwise the `{ zones }` payload. -/
def handleSaveCalibration (zones : List Zone) : Option SavePayload :=
  if zones = [] then none
  else some { zones := zones }

/-- The number of marked reference points a zone carries. -/
def zonePointCount (z : Zone) : Nat :=
  (if z.reference_point1.isSome then 1 else 0) +
    (if z.reference_point2.isSome then 1 else 0)

/-- The total number of image-space points contained in a save payload. -/
def payloadPointCount (p : SavePayload) : Nat :=
  (p.zones.map zonePointCount).sum

/-! ## Backend models taken from the specification

The calibration engine, the video lifecycle transition and the analytics
aggregator are backend subsystems whose code is not part of this repository;
only the dashboard that calls them is.  They are modelled here from the
specification's words. -/

/-- The calibration engine's error taxonomy. -/
inductive CalibrationError
  | invalidInput
  | degenerateGeometry
  deriving DecidableEq, Repr

/-- A four-point calibration input: the ordered point sequence and the
reference distance. -/
structure FourPointInput where
  points : List (ℚ × ℚ)
  reference_distance : ℚ
  deriving DecidableEq, Repr

/-- Modelled from the spec: `compute_transform` input validation — exactly 4
distinct points, each within `[0, frame_width) x [0, frame_height)`, and
`reference_distance > 0`. -/
def validFourPointInput (fw fh : ℚ) (inp : FourPointInput) : Bool :=
  decide (inp.points.length = 4) &&
    decide inp.points.Nodup &&
    inp.points.all (fun p =>
      decide (0 ≤ p.1) && decide (p.1 < fw) && decide (0 ≤ p.2) && decide (p.2 < fh)) &&
    decide (0 < inp.reference_distance)

/-- A signed doubled triangle area: zero exactly when the three points are
collinear. -/
def crossArea (a b c : ℚ × ℚ) : ℚ :=
  (b.1 - a.1) * (c.2 - a.2) - (b.2 - a.2) * (c.1 - a.1)

/-- Whether some three of the given points are collinear. -/
def hasCollinearTriple (ps : List (ℚ × ℚ)) : Bool :=
  (ps.sublistsLen 3).any (fun t =>
    match t with
    | [a, b, c] => decide (crossArea a b c = 0)
    | _ => false)

/-- Modelled from the spec: saving a calibration through `compute_transform` —
invalid input is rejected with `InvalidInput`, degenerate geometry with
`DegenerateGeometry`, and in both cases the prior calibration (if any) is
retained unchanged; a valid save overwrites the stored calibration. -/
def saveCalibration (fw fh : ℚ) (prior : Option FourPointInput) (inp : FourPointInput) :
    Except CalibrationError Unit × Option FourPointInput :=
  if !(validFourPointInput fw fh inp) then
    (Except.error CalibrationError.invalidInput, prior)
  else if hasCollinearTriple inp.points then
    (Except.error CalibrationError.degenerateGeometry, prior)
  else
    (Except.ok (), some inp)

/-- Errors of the process-request transition. -/
inductive ProcessError
  | validationError
  | conflictError
  deriving DecidableEq, Repr

/-- Modelled from the spec: the process-request transition of the video
lifecycle state machine — a second request while `processing` is a conflict;
`enable_speed_calculation` without `is_calibrated` is refused with
`ValidationError` and mutates nothing; otherwise the video enters
`processing`. -/
def processVideo (v : Video) (cfg : ProcessingConfig) :
    Except ProcessError Unit × Video :=
  if v.status = VideoStatus.processing then
    (Except.error ProcessError.conflictError, v)
  else if cfg.enable_speed_calculation && !v.is_calibrated then
    (Except.error ProcessError.validationError, v)
  else
    (Except.ok (), { v with status := VideoStatus.processing })

/-- The global analytics summary record the dashboard's home page consumes. -/
structure AnalyticsSummary where
  total_videos : Nat
  processing_videos : Nat
  completed_videos : Nat
  failed_videos : Nat
  total_vehicles_detected : Nat
  avg_processing_time : Option ℚ
  deriving DecidableEq, Repr

/-- The processing time of a single video: `processed_at - uploaded_at`. -/
def processingTime (v : Video) : ℚ :=
  v.processed_at.getD v.uploaded_at - v.uploaded_at

/-- Modelled from the spec: the global analytics summary — counts of videos by
status, `total_vehicles_detected = sum(vehicle_count)` over completed videos,
and `avg_processing_time` averaged over completed videos, omitted when there
is no completed video. -/
def analyticsSummary (vs : List Video) : AnalyticsSummary :=
  let completed := vs.filter (fun v => v.status == VideoStatus.completed)
  { total_videos := vs.length
    processing_videos := (vs.filter (fun v => v.status == VideoStatus.processing)).length
    completed_videos := completed.length
    failed_videos := (vs.filter (fun v => v.status == VideoStatus.failed)).length
    total_vehicles_detected := (completed.map (fun v => v.vehicle_count)).sum
    avg_processing_time :=
      if completed.isEmpty then none
      else some ((completed.map processingTime).sum / (completed.length : ℚ)) }

/-- HomePage renders the Average Processing Time statistic under the guard
`analytics.avg_processing_time && ...`: the field is present and truthy
(non-zero). -/
def rendersAvgProcessingTime (a : AnalyticsSummary) : Bool :=
  match a.avg_processing_time with
  | none => false
  | some q => decide (q ≠ 0)

/-! ## The calibration transform (modelled from the specification)

`compute_transform` produces a planar projective mapping scaled so that the
quadrilateral's first-to-second edge corresponds to `reference_distance`
meters; `Transform.project` applies it to an image point. -/

/-- A 3x3 real matrix, the homogeneous representation of a planar projective
map. -/
structure HMat where
  m11 : ℝ
  m12 : ℝ
  m13 : ℝ
  m21 : ℝ
  m22 : ℝ
  m23 : ℝ
  m31 : ℝ
  m32 : ℝ
  m33 : ℝ

/-- Apply a projective map to an image point (homogeneous application followed
by perspective division). -/
noncomputable def papply (H : HMat) (p : ℝ × ℝ) : ℝ × ℝ :=
  ((H.m11 * p.1 + H.m12 * p.2 + H.m13) / (H.m31 * p.1 + H.m32 * p.2 + H.m33),
   (H.m21 * p.1 + H.m22 * p.2 + H.m23) / (H.m31 * p.1 + H.m32 * p.2 + H.m33))

/-- The straight-line (Euclidean) distance between two points of the plane. -/
noncomputable def metricDist (p q : ℝ × ℝ) : ℝ :=
  Real.sqrt ((p.1 - q.1) ^ 2 + (p.2 - q.2) ^ 2)

/-- Uniform scaling of a point about the origin. -/
def scalePoint (s : ℝ) (p : ℝ × ℝ) : ℝ × ℝ :=
  (s * p.1, s * p.2)

/-- A validated four-point calibration: the four clicked points, in click
order, and the reference distance. -/
structure FourPointCalib where
  p1 : ℝ × ℝ
  p2 : ℝ × ℝ
  p3 : ℝ × ℝ
  p4 : ℝ × ℝ
  reference_distance : ℝ

/-- Modelled from the spec: `Transform.project` — the homography `H` mapping
the quadrilateral to the normalized rectangle, rescaled so that traversing the
reference edge (first-to-second clicked point) corresponds to
`reference_distance` meters. -/
noncomputable def project (H : HMat) (cal : FourPointCalib) (q : ℝ × ℝ) : ℝ × ℝ :=
  scalePoint (cal.reference_distance / metricDist (papply H cal.p1) (papply H cal.p2))
    (papply H q)

/-- The identity projective map, used as a concrete transform instance. -/
def idHMat : HMat :=
  { m11 := 1, m12 := 0, m13 := 0
    m21 := 0, m22 := 1, m23 := 0
    m31 := 0, m32 := 0, m33 := 1 }

/-! ## Concrete instances used by counterexamples and witnesses -/

/-- A concrete detection carrying a negative speed value. -/
def negSpeedDetection : Detection :=
  { track_id := 1
    frame_number := 1
    timestamp := 0
    speed := -1
    is_speeding := false }

/-- A concrete complete zone, as produced by a successful add. -/
def demoZone : Zone :=
  { name := "near"
    y_min := 450
    y_max := 550
    reference_point1 := some (100, 500)
    reference_point2 := some (400, 500)
    real_distance := some 10 }

/-- A calibration-page state about to add a zone whose clicked points carry
negative y-coordinates. -/
def negYState : CalibState :=
  { zones := []
    currentZone :=
      { name := "z"
        y_min := 0
        y_max := 0
        reference_point1 := some (0, -100)
        reference_point2 := some (0, -100)
        real_distance := some 10 }
    clickCount := 2 }

/-- The zone `handleAddZone` stores from `negYState`: its vertical band is
empty (`y_max < y_min`). -/
def negBandZone : Zone :=
  { name := "z"
    y_min := 0
    y_max := -50
    reference_point1 := some (0, -100)
    reference_point2 := some (0, -100)
    real_distance := some 10 }

/-- A unit-square calibration with reference distance 1, projected through the
identity map. -/
def unitCalib : FourPointCalib :=
  { p1 := (0, 0)
    p2 := (1, 0)
    p3 := (1, 1)
    p4 := (0, 1)
    reference_distance := 1 }

/-- A concrete uncalibrated uploaded video. -/
def uncalVideo : Video :=
  { id := 1
    filename := "traffic.mp4"
    status := VideoStatus.uploaded
    progress := 0
    processed_frames := 0
    total_frames := 100
    is_calibrated := false
    vehicle_count := 0
    uploaded_at := 0
    processed_at := none }

/-- A concrete completed video. -/
def completedVideo : Video :=
  { id := 2
    filename := "done.mp4"
    status := VideoStatus.completed
    progress := 100
    processed_frames := 100
    total_frames := 100
    is_calibrated := true
    vehicle_count := 7
    uploaded_at := 0
    processed_at := some 5 }

/-- A concrete processing configuration with speed calculation enabled. -/
def speedConfig : ProcessingConfig :=
  { confidence_threshold := 3 / 10
    iou_threshold := 7 / 10
    enable_speed_calculation := true
    speed_limit := 80 }

/-- A concrete list of videos with one completed member. -/
def demoVideos : List Video :=
  [completedVideo, uncalVideo]

/-- Two concrete detections with nonnegative speeds. -/
def demoDetections : List Detection :=
  [{ track_id := 1, frame_number := 10, timestamp := 1, speed := 95, is_speeding := true },
   { track_id := 2, frame_number := 20, timestamp := 2, speed := 60, is_speeding := false }]

/-- The calibration page's initial state: empty zone list, empty current
zone. -/
def initialCalibState : CalibState :=
  { zones := []
    currentZone := emptyCurrentZone
    clickCount := 0 }

/-- A three-point calibration input, which the engine must reject. -/
def threePointInput : FourPointInput :=
  { points := [(100, 500), (400, 500), (400, 700)]
    reference_distance := 10 }

/-- A concrete file with a disallowed extension. -/
def badFile : JSFile :=
  { name := "movie.txt".toList
    size := 10 }

/-- A calibration-page state about to add a zone from two canvas clicks with
nonnegative y-coordinates. -/
def posYState : CalibState :=
  { zones := []
    currentZone :=
      { name := "near"
        y_min := 0
        y_max := 0
        reference_point1 := some (100, 500)
        reference_point2 := some (400, 500)
        real_distance := some 10 }
    clickCount := 2 }

/-- The zone `handleAddZone` appends from `posYState`. -/
def addedZone : Zone :=
  (handleAddZone posYState).zones.headD demoZone

/-! ## Helper lemmas -/

/-- Pulling an element out of the seed of a `max`-fold. -/
theorem foldr_max_max (l : List ℚ) (a b : ℚ) :
    l.foldr max (max a b) = max a (l.foldr max b) := by
  induction l with
  | nil => rfl
  | cons y ys ih => simp only [List.foldr_cons, ih, max_left_comm]

/-- A left `max`-fold agrees with the right fold over the same seed. -/
theorem foldl_max_eq_foldr (l : List ℚ) (a : ℚ) :
    l.foldl max a = l.foldr max a := by
  induction l generalizing a with
  | nil => rfl
  | cons y ys ih =>
    show ys.foldl max (max a y) = max y (ys.foldr max a)
    rw [ih, max_comm a y, foldr_max_max]

/-- The seed bounds a `max`-fold from below. -/
theorem le_foldr_max (l : List ℚ) (a : ℚ) : a ≤ l.foldr max a := by
  induction l with
  | nil => exact le_refl a
  | cons y ys ih => exact le_trans ih (le_max_right y (ys.foldr max a))

/-- Folding `max` over a list seeded with `0` equals the left fold seeded with
the head, `max`-ed with `0`. -/
theorem foldr_max_zero (s : ℚ) (l : List ℚ) :
    (s :: l).foldr max 0 = max (l.foldl max s) 0 := by
  rw [List.foldr_cons, foldl_max_eq_foldr, ← foldr_max_max l s 0,
    max_comm (l.foldr max s) 0, ← foldr_max_max l 0 s, max_comm s 0]

/-- `maxSpeed` computes the `max` of the spec's `max(speed)` reading with the
extra `0` argument of `Math.max`. -/
theorem maxSpeed_eq_max_claim (ds : List Detection) :
    maxSpeed ds = max (claimMaxSpeed ds) 0 := by
  unfold maxSpeed claimMaxSpeed
  cases h : ds.map (fun d => d.speed) with
  | nil => simp
  | cons s ss => exact foldr_max_zero s ss

/-! ## Claim theorems -/

/-- C3 counterexample: on a single detection with speed `-1`, the report
page's `maxSpeed` yields `0`, not the maximum `-1` of the speed values, so
`max_speed` is not in general the maximum of the detections' speeds. -/
theorem report_max_speed_counterexample :
    maxSpeed [negSpeedDetection] = 0 ∧
    claimMaxSpeed [negSpeedDetection] = -1 ∧
    maxSpeed [negSpeedDetection] ≠ claimMaxSpeed [negSpeedDetection] := by
  refine ⟨?_, ?_, ?_⟩ <;> decide

/-- C3 (amended): the per-video report computes `total_vehicles` as the length
of the detection list and `speeding_vehicles` as the count of detections with
`is_speeding`; `max_speed` is `Math.max` of the speed values together with the
extra argument `0`, hence equal to the maximum of the speed values whenever
all speeds are nonnegative, and `0` on the empty list. -/
theorem report_stats :
    ∀ ds : List Detection,
      totalVehicles ds = ds.length ∧
      speedingVehicles ds = ds.countP (fun d => d.is_speeding) ∧
      maxSpeed ds = max (claimMaxSpeed ds) 0 ∧
      maxSpeed [] = (0 : ℚ) ∧
      ((∀ d ∈ ds, 0 ≤ d.speed) → maxSpeed ds = claimMaxSpeed ds) := by
  intro ds
  refine ⟨rfl, ?_, maxSpeed_eq_max_claim ds, rfl, ?_⟩
  · rw [speedingVehicles, List.countP_eq_length_filter]
  · intro hnn
    rw [maxSpeed_eq_max_claim ds]
    cases ds with
    | nil => rfl
    | cons d tl =>
      apply max_eq_left
      have hd : (0 : ℚ) ≤ d.speed := hnn d (List.mem_cons_self d tl)
      have : d.speed ≤ claimMaxSpeed (d :: tl) := by
        unfold claimMaxSpeed
        simp only [List.map_cons]
        rw [foldl_max_eq_foldr]
        exact le_foldr_max (tl.map (fun x => x.speed)) d.speed
      exact le_trans hd this

/-- C3 witness: on a concrete list of detections with nonnegative speeds,
`maxSpeed` agrees with the spec's maximum of the speed values. -/
theorem report_stats_witness :
    (∀ d ∈ demoDetections, 0 ≤ d.speed) ∧
    maxSpeed demoDetections = claimMaxSpeed demoDetections :=
  ⟨by decide, (report_stats demoDetections).2.2.2.2 (by decide)⟩

/-- C4: the report page's tab filter returns exactly the `is_speeding`
detections under `speeding`, exactly the non-speeding ones under `normal`, and
the full list unchanged under `all`; the `speeding` and `normal` results
partition the `all` result. -/
theorem report_filter_views :
    ∀ ds : List Detection,
      filteredDetections ds ReportFilter.all = ds ∧
      (∀ d : Detection,
        d ∈ filteredDetections ds ReportFilter.speeding ↔ d ∈ ds ∧ d.is_speeding = true) ∧
      (∀ d : Detection,
        d ∈ filteredDetections ds ReportFilter.normal ↔ d ∈ ds ∧ d.is_speeding = false) ∧
      (filteredDetections ds ReportFilter.speeding).length +
          (filteredDetections ds ReportFilter.normal).length =
        (filteredDetections ds ReportFilter.all).length := by
  intro ds
  refine ⟨?_, ?_, ?_, ?_⟩
  · simp [filteredDetections, filterPred]
  · intro d
    simp [filteredDetections, filterPred, List.mem_filter]
  · intro d
    simp [filteredDetections, filterPred, List.mem_filter]
  · induction ds with
    | nil => rfl
    | cons d tl ih =>
      cases h : d.is_speeding <;>
        simp [filteredDetections, filterPred, List.filter_cons, h] at ih ⊢ <;>
        omega

/-- C6: the video-detail query polls exactly while the video is processing:
the refetch-interval function returns the 2000 ms interval precisely when the
fetched video's status is `processing`, and `off` (the JavaScript `false`) for
every other status and for an absent video. -/
theorem video_poll_interval :
    ∀ v : Video,
      (refetchInterval (some v) = RefetchResult.interval 2000 ↔
        v.status = VideoStatus.processing) ∧
      (v.status ≠ VideoStatus.processing → refetchInterval (some v) = RefetchResult.off) ∧
      refetchInterval none = RefetchResult.off := by
  intro v
  refine ⟨?_, ?_, rfl⟩
  · unfold refetchInterval
    by_cases h : v.status = VideoStatus.processing <;> simp [h]
  · intro h
    unfold refetchInterval
    simp [h]

/-- C6 witness: a completed video is not polled. -/
theorem video_poll_interval_witness :
    completedVideo.status ≠ VideoStatus.processing ∧
    refetchInterval (some completedVideo) = RefetchResult.off :=
  ⟨by decide, (video_poll_interval completedVideo).2.1 (by decide)⟩

/-- C1 counterexample: saving with one completed zone issues a request whose
payload carries 2 image-space points (one zone with two reference points and a
per-zone `real_distance`), not an ordered sequence of exactly 4 points with a
single `reference_distance`. -/
theorem calibration_save_payload_counterexample :
    handleSaveCalibration [demoZone] = some { zones := [demoZone] } ∧
    payloadPointCount { zones := [demoZone] } = 2 ∧
    payloadPointCount { zones := [demoZone] } ≠ 4 := by
  refine ⟨?_, ?_, ?_⟩ <;> decide

/-- C1 (amended): the dashboard's save operation sends a zone-based payload:
it issues no request when the zone list is empty, and otherwise sends exactly
`\x7b zones \x7d`; every zone the page's add operation ever appends carries
exactly two marked reference points and a positive per-zone `real_distance`
(the 4-point + single `reference_distance` schema is the specification's
superseding model, not what this page sends). -/
theorem calibration_save_zone_payload :
    (∀ zs : List Zone, zs ≠ [] → handleSaveCalibration zs = some { zones := zs }) ∧
    handleSaveCalibration [] = none ∧
    (∀ s : CalibState,
      (handleAddZone s).zones = s.zones ∨
      ∃ z : Zone, (handleAddZone s).zones = s.zones ++ [z] ∧ zonePointCount z = 2 ∧
        ∃ d : ℚ, z.real_distance = some d ∧ 0 < d) := by
  refine ⟨?_, rfl, ?_⟩
  · intro zs h
    simp [handleSaveCalibration, h]
  · intro s
    by_cases hn : s.currentZone.name = ""
    · left
      simp [handleAddZone, hn]
    · cases h1 : s.currentZone.reference_point1 with
      | none => left; simp [handleAddZone, hn, h1]
      | some p1 =>
        cases h2 : s.currentZone.reference_point2 with
        | none => left; simp [handleAddZone, hn, h1, h2]
        | some p2 =>
          cases hd : s.currentZone.real_distance with
          | none => left; simp [handleAddZone, hn, h1, h2, validDistance, hd]
          | some d =>
            by_cases hpos : (0 : ℚ) < d
            · right
              refine ⟨{ s.currentZone with
                          y_min := max 0 (min p1.2 p2.2 - 50)
                          y_max := max p1.2 p2.2 + 50 }, ?_, ?_, d, ?_, hpos⟩
              · simp [handleAddZone, hn, h1, h2, validDistance, hd, hpos]
              · simp [zonePointCount, h1, h2]
              · simp [hd]
            · left
              simp [handleAddZone, hn, h1, h2, validDistance, hd, hpos]

/-- C1 witness: saving a single-zone list issues the `\x7b zones \x7d`
request. -/
theorem calibration_save_zone_payload_witness :
    [demoZone] ≠ ([] : List Zone) ∧
    handleSaveCalibration [demoZone] = some { zones := [demoZone] } :=
  ⟨by decide, calibration_save_zone_payload.1 [demoZone] (by decide)⟩

/-- C2: for an uploaded uncalibrated video and a configuration enabling speed
calculation, the dashboard's `handleProcess` issues no process request and
navigates to the calibration page regardless of the confirm dialog, and the
backend process transition is refused with `ValidationError`, leaving the
video — in particular its `uploaded` status — unchanged. -/
theorem uncalibrated_speed_process_rejected :
    ∀ (v : Video) (cfg : ProcessingConfig) (confirmed : Bool),
      v.is_calibrated = false →
      cfg.enable_speed_calculation = true →
      v.status = VideoStatus.uploaded →
      handleProcess v cfg confirmed = ProcessAction.navigateToCalibration ∧
      processVideo v cfg = (Except.error ProcessError.validationError, v) ∧
      (processVideo v cfg).2.status = VideoStatus.uploaded := by
  intro v cfg confirmed hcal hspeed hst
  have h1 : handleProcess v cfg confirmed = ProcessAction.navigateToCalibration := by
    simp [handleProcess, hcal, hspeed]
  have h2 : processVideo v cfg = (Except.error ProcessError.validationError, v) := by
    simp [processVideo, hst, hcal, hspeed]
  exact ⟨h1, h2, by rw [h2]; exact hst⟩

/-- C2 witness: the concrete uncalibrated uploaded video with speed
calculation requested is redirected by the dashboard and refused by the
backend transition. -/
theorem uncalibrated_speed_process_rejected_witness :
    uncalVideo.is_calibrated = false ∧
    speedConfig.enable_speed_calculation = true ∧
    uncalVideo.status = VideoStatus.uploaded ∧
    handleProcess uncalVideo speedConfig true = ProcessAction.navigateToCalibration :=
  ⟨rfl, rfl, rfl,
    (uncalibrated_speed_process_rejected uncalVideo speedConfig true rfl rfl rfl).1⟩

/-- C5: invalid calibration input is rejected with no state change: on the
page, `handleAddZone` leaves the whole component state (in particular the
pending zone list) unchanged when the name is empty, a reference point is
unset, or the real distance is missing or non-positive; at save time, a
calibration input with fewer than 4 points or a non-positive reference
distance is rejected with `InvalidInput` and the prior calibration (if any) is
retained unchanged. -/
theorem calibration_invalid_input_rejected :
    ∀ (s : CalibState) (prior : Option FourPointInput) (inp : FourPointInput) (fw fh : ℚ),
      ((s.currentZone.name = "" ∨ s.currentZone.reference_point1 = none ∨
          s.currentZone.reference_point2 = none ∨
          validDistance s.currentZone.real_distance = false) →
        handleAddZone s = s) ∧
      ((inp.points.length < 4 ∨ inp.reference_distance ≤ 0) →
        saveCalibration fw fh prior inp =
          (Except.error CalibrationError.invalidInput, prior)) := by
  intro s prior inp fw fh
  refine ⟨?_, ?_⟩
  · intro h
    by_cases hn : s.currentZone.name = ""
    · simp [handleAddZone, hn]
    · rcases h with h | h | h | h
      · exact absurd h hn
      · simp [handleAddZone, hn, h]
      · cases h1 : s.currentZone.reference_point1 <;>
          simp [handleAddZone, hn, h1, h]
      · cases h1 : s.currentZone.reference_point1 <;>
          cases h2 : s.currentZone.reference_point2 <;>
          simp [handleAddZone, hn, h1, h2, h]
  · intro h
    have hv : validFourPointInput fw fh inp = false := by
      rcases h with h | h
      · have hlen : ¬ inp.points.length = 4 := by omega
        simp [validFourPointInput, hlen]
      · have hd : ¬ (0 : ℚ) < inp.reference_distance := not_lt.mpr h
        simp [validFourPointInput, hd]
    simp [saveCalibration, hv]

/-- C5 witness: the initial page state (empty zone name) is left unchanged by
an add, and a three-point input is rejected with `InvalidInput` while the
(absent) prior calibration is retained. -/
theorem calibration_invalid_input_rejected_witness :
    handleAddZone initialCalibState = initialCalibState ∧
    saveCalibration 1280 720 none threePointInput =
      (Except.error CalibrationError.invalidInput, none) :=
  ⟨(calibration_invalid_input_rejected initialCalibState none threePointInput 1280 720).1
      (Or.inl rfl),
   (calibration_invalid_input_rejected initialCalibState none threePointInput 1280 720).2
      (Or.inl (by decide))⟩

/-- C9: a file is accepted (becomes the selection) exactly when its lowercased
filename extension is one of the allowed video types and its size is at most
500 MiB-scaled bytes; any file violating either condition leaves the selected
file unchanged, and since upload requests only ever target the selected file,
no upload request is issued for it. -/
theorem upload_file_validation :
    ∀ (f : JSFile) (sel : Option JSFile),
      (handleFileSelect f sel ≠ sel → fileExt f ∈ validTypes ∧ f.size ≤ maxSize) ∧
      ((fileExt f ∉ validTypes ∨ maxSize < f.size) →
        handleFileSelect f sel = sel ∧
        (sel ≠ some f → uploadRequest (handleFileSelect f sel) ≠ some f)) ∧
      ((fileExt f ∈ validTypes ∧ f.size ≤ maxSize) → handleFileSelect f sel = some f) := by
  intro f sel
  by_cases hc : fileExt f ∈ validTypes
  · by_cases hs : maxSize < f.size
    · have he : handleFileSelect f sel = sel := by
        simp [handleFileSelect, hc, hs]
      refine ⟨fun h => absurd he h, fun _ => ⟨he, fun hne => ?_⟩,
        fun h => absurd hs (not_lt.mpr h.2)⟩
      rw [uploadRequest, he]
      exact hne
    · have he : handleFileSelect f sel = some f := by
        simp [handleFileSelect, hc, hs]
      refine ⟨fun _ => ⟨hc, not_lt.mp hs⟩, ?_, fun _ => he⟩
      rintro (h | h)
      · exact absurd hc h
      · exact absurd h hs
  · have he : handleFileSelect f sel = sel := by
      simp [handleFileSelect, hc]
    refine ⟨fun h => absurd he h, fun _ => ⟨he, fun hne => ?_⟩,
      fun h => absurd h.1 hc⟩
    rw [uploadRequest, he]
    exact hne

/-- C9 witness: a concrete `.txt` file is rejected and the (empty) selection
is unchanged. -/
theorem upload_file_validation_witness :
    fileExt badFile ∉ validTypes ∧
    handleFileSelect badFile none = none :=
  ⟨by decide, ((upload_file_validation badFile none).2.1 (Or.inl (by decide))).1⟩

/-- C10 counterexample: with both clicked points at `y = -100`, `handleAddZone`
stores a zone with `y_min = 0` and `y_max = -50`, so `y_min < y_max` fails:
the claimed invariant does not hold for all real `y1, y2`. -/
theorem zone_band_counterexample :
    (handleAddZone negYState).zones = [negBandZone] ∧
    ¬ (negBandZone.y_min < negBandZone.y_max) := by
  have hy : max (0 : ℚ) (min (-100 : ℚ) (-100) - 50) = 0 := by
    rw [min_self]
    exact max_eq_left (by norm_num)
  have hy2 : max (-100 : ℚ) (-100) + 50 = -50 := by
    rw [max_self]
    norm_num
  constructor
  · simp [handleAddZone, negYState, validDistance, negBandZone, hy, hy2]
    norm_num
  · norm_num [negBandZone]

/-- C10 (amended): whenever the two clicked reference points have nonnegative
y-coordinates — as clicks on the canvas produce — every zone in the list after
an add is either a previously present zone or satisfies
`0 ≤ y_min ∧ y_min < y_max`, with `y_min = max(0, min(y1, y2) - 50)` and
`y_max = max(y1, y2) + 50`. -/
theorem zone_band_nonneg :
    ∀ (s : CalibState) (p1 p2 : ℚ × ℚ),
      s.currentZone.reference_point1 = some p1 →
      s.currentZone.reference_point2 = some p2 →
      0 ≤ p1.2 → 0 ≤ p2.2 →
      ∀ z ∈ (handleAddZone s).zones,
        z ∈ s.zones ∨ (0 ≤ z.y_min ∧ z.y_min < z.y_max) := by
  intro s p1 p2 h1 h2 hy1 hy2 z hz
  by_cases hn : s.currentZone.name = ""
  · rw [handleAddZone, if_pos hn] at hz
    exact Or.inl hz
  · by_cases hvd : validDistance s.currentZone.real_distance = true
    · simp [handleAddZone, hn, h1, h2, hvd] at hz
      rcases hz with hz | hz
      · exact Or.inl hz
      · right
        rw [hz]
        dsimp only
        refine ⟨le_max_left 0 _, ?_⟩
        apply max_lt
        · have h0 : (0 : ℚ) ≤ max p1.2 p2.2 := le_trans hy1 (le_max_left _ _)
          linarith
        · have hm : min p1.2 p2.2 ≤ max p1.2 p2.2 := min_le_max
          linarith
    · simp [handleAddZone, hn, h1, h2, hvd] at hz
      exact Or.inl hz

/-- C10 witness: from two concrete canvas clicks at `y = 500`, the added zone
satisfies the band invariant. -/
theorem zone_band_nonneg_witness :
    (handleAddZone posYState).zones = [addedZone] ∧
    (addedZone ∈ posYState.zones ∨ (0 ≤ addedZone.y_min ∧ addedZone.y_min < addedZone.y_max)) := by
  have hmem : addedZone ∈ (handleAddZone posYState).zones := by
    rw [show (handleAddZone posYState).zones = [addedZone] from rfl]
    exact List.mem_singleton_self addedZone
  exact ⟨rfl,
    zone_band_nonneg posYState (100, 500) (400, 500) rfl rfl (by norm_num) (by norm_num)
      addedZone hmem⟩

/-- Uniform scaling multiplies straight-line distances by the absolute value
of the scale factor. -/
theorem metricDist_scalePoint (s : ℝ) (p q : ℝ × ℝ) :
    metricDist (scalePoint s p) (scalePoint s q) = |s| * metricDist p q := by
  unfold metricDist scalePoint
  rw [show (s * p.1 - s * q.1) ^ 2 + (s * p.2 - s * q.2) ^ 2
      = s ^ 2 * ((p.1 - q.1) ^ 2 + (p.2 - q.2) ^ 2) by ring]
  rw [Real.sqrt_mul (sq_nonneg s), Real.sqrt_sq_eq_abs]

/-- C7: for a valid 4-point calibration with positive reference distance and a
non-degenerate homography (the projected reference edge has positive length),
applying `Transform.project` to the first two clicked points — the points that
define the reference edge — yields a straight-line metric distance exactly
equal to the reference distance. -/
theorem transform_reference_edge_distance :
    ∀ (H : HMat) (cal : FourPointCalib),
      0 < cal.reference_distance →
      0 < metricDist (papply H cal.p1) (papply H cal.p2) →
      metricDist (project H cal cal.p1) (project H cal cal.p2) =
        cal.reference_distance := by
  intro H cal hD hd
  unfold project
  rw [metricDist_scalePoint, abs_of_pos (div_pos hD hd),
    div_mul_cancel₀ _ (ne_of_gt hd)]

/-- C7 witness: the unit-square calibration through the identity map projects
its reference edge to a segment of length exactly 1, its reference
distance. -/
theorem transform_reference_edge_distance_witness :
    0 < unitCalib.reference_distance ∧
    0 < metricDist (papply idHMat unitCalib.p1) (papply idHMat unitCalib.p2) ∧
    metricDist (project idHMat unitCalib unitCalib.p1) (project idHMat unitCalib unitCalib.p2)
      = unitCalib.reference_distance := by
  have hd : metricDist (papply idHMat unitCalib.p1) (papply idHMat unitCalib.p2) = 1 := by
    simp [metricDist, papply, idHMat, unitCalib]
  have hD : (0 : ℝ) < unitCalib.reference_distance := by
    simp [unitCalib]
  exact ⟨hD, by rw [hd]; norm_num,
    transform_reference_edge_distance idHMat unitCalib hD (by rw [hd]; norm_num)⟩

/-- C8: the analytics summary's `avg_processing_time` is omitted (`none`)
exactly when there is no completed video, and otherwise is the average of
`processed_at - uploaded_at` over the completed videos; the home page renders
the Average Processing Time statistic exactly when the field is present and
truthy (non-zero). -/
theorem analytics_avg_processing_time :
    ∀ vs : List Video,
      ((analyticsSummary vs).avg_processing_time = none ↔
        vs.filter (fun v => v.status == VideoStatus.completed) = []) ∧
      (vs.filter (fun v => v.status == VideoStatus.completed) ≠ [] →
        (analyticsSummary vs).avg_processing_time =
          some (((vs.filter (fun v => v.status == VideoStatus.completed)).map
              processingTime).sum /
            ((vs.filter (fun v => v.status == VideoStatus.completed)).length : ℚ))) ∧
      (∀ a : AnalyticsSummary,
        rendersAvgProcessingTime a = true ↔
          ∃ q : ℚ, a.avg_processing_time = some q ∧ q ≠ 0) := by
  intro vs
  refine ⟨?_, ?_, ?_⟩
  · cases hc : vs.filter (fun v => v.status == VideoStatus.completed) with
    | nil => simp [analyticsSummary, hc]
    | cons a l => simp [analyticsSummary, hc]
  · intro h
    cases hc : vs.filter (fun v => v.status == VideoStatus.completed) with
    | nil => exact absurd hc h
    | cons a l => simp [analyticsSummary, hc]
  · intro a
    cases ha : a.avg_processing_time with
    | none => simp [rendersAvgProcessingTime, ha]
    | some q => simp [rendersAvgProcessingTime, ha]

/-- C8 witness: on a concrete video list with one completed video, the
average processing time is reported as the average over the completed
videos. -/
theorem analytics_avg_processing_time_witness :
    demoVideos.filter (fun v => v.status == VideoStatus.completed) ≠ [] ∧
    (analyticsSummary demoVideos).avg_processing_time =
      some (((demoVideos.filter (fun v => v.status == VideoStatus.completed)).map
          processingTime).sum /
        ((demoVideos.filter (fun v => v.status == VideoStatus.completed)).length : ℚ)) :=
  ⟨by decide, (analytics_avg_processing_time demoVideos).2.1 (by decide)⟩
